import Mathlib

/-!
Shallow embedding of the B3 trace-context propagator
(`opentelemetry/sdk/trace/propagation/b3_format.py`) and proofs about it.

Header values are modelled as lists of characters.  The carrier/getter pair is
modelled as a function from a header key to an optional list of values, the
setter as the list of (key, value) writes `inject` performs, in order.  The
random identifier generator is an external collaborator: its two outputs are
passed to `extract` as explicit parameters `genTrace` and `genSpan`.
-/

namespace B3

/-- A header value: Python `str`, modelled as a list of characters. -/
abbrev Str := List Char

/-- A carrier paired with its `get_from_carrier` accessor: for a header key it
returns either `none` (Python `None`) or the list of values for that key. -/
abbrev Getter := String → Option (List Str)

def SINGLE_HEADER_KEY : String := "b3"

def TRACE_ID_KEY : String := "x-b3-traceid"

def SPAN_ID_KEY : String := "x-b3-spanid"

def PARENT_SPAN_ID_KEY : String := "x-b3-parentspanid"

def SAMPLED_KEY : String := "x-b3-sampled"

def FLAGS_KEY : String := "x-b3-flags"

/-- Modelled from the spec: `trace.INVALID_TRACE_ID` lives in the api package
(not part of the embedded source file); the spec fixes the invalid sentinel
trace id to the all-zero value. -/
def INVALID_TRACE_ID : Nat := 0

/-- Modelled from the spec: `trace.INVALID_SPAN_ID` is the all-zero sentinel. -/
def INVALID_SPAN_ID : Nat := 0

/-- Modelled from the spec: `trace.TraceFlags.SAMPLED` is the sampled bit of
the trace flags, the only flag bit in the model (value 1). -/
def TraceFlags_SAMPLED : Nat := 1

/-- The trace context produced by `extract` (the `SpanContext` of the span that
is set in the returned context; `DefaultSpan` and `set_span_in_context` are
transparent wrappers and are elided). `trace_flags` is a natural number whose
bit `TraceFlags_SAMPLED` is the sampled flag. -/
structure SpanContext where
  trace_id : Nat
  span_id : Nat
  is_remote : Bool
  trace_flags : Nat
deriving DecidableEq

/-- Modelled from the spec: `trace.INVALID_SPAN_CONTEXT` (api package) is the
context of `trace.INVALID_SPAN`: both identifiers are the all-zero sentinel,
it is not remote and no flag is set. -/
def INVALID_SPAN_CONTEXT : SpanContext :=
  { trace_id := INVALID_TRACE_ID, span_id := INVALID_SPAN_ID
    is_remote := false, trace_flags := 0 }

/-- The sampled flag of a context, as `inject` reads it:
`(trace.TraceFlags.SAMPLED & trace_flags) != 0`. -/
def sampledFlag (c : SpanContext) : Bool :=
  (TraceFlags_SAMPLED &&& c.trace_flags) != 0

/-- A minimal regular-expression syntax, enough for the two patterns the
source compiles: a character class, alternation, and an n-fold repetition
built from `seq`. -/
inductive RE where
  | eps
  | cls (p : Char → Bool)
  | alt (a b : RE)
  | seq (a b : RE)

/-- Full-match semantics of `RE` (Python `re.fullmatch`): the whole string
must be consumed. `seq` tries every split point. -/
def RE.accept : RE → Str → Bool
  | .eps, s => s.isEmpty
  | .cls p, s =>
    match s with
    | [c] => p c
    | _ => false
  | .alt a b, s => a.accept s || b.accept s
  | .seq a b, s =>
    (List.range (s.length + 1)).any fun i => a.accept (s.take i) && b.accept (s.drop i)

/-- `r.pow n` is the regex `r{n}`: `n` copies of `r` in sequence. -/
def RE.pow (r : RE) : Nat → RE
  | 0 => .eps
  | n + 1 => .seq r (r.pow n)

/-- The code points matched by Python's `\d` in its default Unicode mode (the
Unicode decimal digits, category Nd), as aligned blocks of ten consecutive
characters each starting at the digit of value zero: the table lists each
block's first code point, extracted from CPython's own `re` match set. -/
def unicodeDigitBlocks : List Nat :=
  [48, 1632, 1776, 1984, 2406, 2534, 2662, 2790, 2918, 3046, 3174, 3302, 3430, 3558, 3664,
   3792, 3872, 4160, 4240, 6112, 6160, 6470, 6608, 6784, 6800, 6992, 7088, 7232, 7248, 42528,
   43216, 43264, 43472, 43504, 43600, 44016, 65296, 66720, 68912, 69734, 69872, 69942, 70096,
   70384, 70736, 70864, 71248, 71360, 71472, 71904, 72016, 72784, 73040, 73120, 92768, 92864,
   93008, 120782, 120792, 120802, 120812, 120822, 123200, 123632, 125264, 130032]

/-- Python's `\d`: any Unicode decimal digit. -/
def isUnicodeDigit (c : Char) : Bool :=
  unicodeDigitBlocks.any fun s => s ≤ c.toNat && c.toNat ≤ s + 9

/-- The character class `[\da-fA-F]`, with `\d` the Unicode decimal digits
(the pattern is a `str` pattern compiled in Python's default Unicode mode). -/
def isB3Hex (c : Char) : Bool :=
  isUnicodeDigit c || ('a' ≤ c && c ≤ 'f') || ('A' ≤ c && c ≤ 'F')

/-- `_trace_id_regex = re.compile(r"[\da-fA-F]{16}|[\da-fA-F]{32}")`. -/
def trace_id_regex : RE :=
  .alt ((RE.cls isB3Hex).pow 16) ((RE.cls isB3Hex).pow 32)

/-- `_span_id_regex = re.compile(r"[\da-fA-F]{16}")`. -/
def span_id_regex : RE :=
  (RE.cls isB3Hex).pow 16

/-- `format_trace_id(trace_id) = format(trace_id, "032x")`: lowercase hex
digits of the number, left-padded with `'0'` to width 32.  `Nat.toDigits 16`
renders exactly Python's `format(n, "x")` (lowercase, and `"0"` for zero). -/
def format_trace_id (trace_id : Nat) : Str :=
  List.replicate (32 - (Nat.toDigits 16 trace_id).length) '0' ++ Nat.toDigits 16 trace_id

/-- `format_span_id(span_id) = format(span_id, "016x")`. -/
def format_span_id (span_id : Nat) : Str :=
  List.replicate (16 - (Nat.toDigits 16 span_id).length) '0' ++ Nat.toDigits 16 span_id

/-- Value of one digit character, as `int(s, 16)` reads it: a Unicode decimal
digit carries its decimal value (its offset within its block of ten), and the
letters a-f and A-F their hex values ten to fifteen. -/
def hexCharVal (c : Char) : Nat :=
  match unicodeDigitBlocks.find? (fun s => s ≤ c.toNat && c.toNat ≤ s + 9) with
  | some s => c.toNat - s
  | none =>
    if 'a' ≤ c && c ≤ 'f' then c.toNat - 87
    else if 'A' ≤ c && c ≤ 'F' then c.toNat - 55
    else 0

/-- `int(s, 16)` on a string of hex digits (the only strings the source ever
parses: both ids have just passed their regex validation). -/
def int_base16 (s : Str) : Nat :=
  s.foldl (fun a c => 16 * a + hexCharVal c) 0

/-- `_extract_first_element(items)`: `None` stays `None`, otherwise the first
element of the iterable, or `None` when it is empty. -/
def extractFirstElement : Option (List Str) → Option Str
  | none => none
  | some items => items.head?

/-- Python `x or d` for an optional string `x` and a string default `d`:
`None` and the empty string are falsy. -/
def pyOr (v : Option Str) (d : Str) : Str :=
  match v with
  | some s => if s.isEmpty then d else s
  | none => d

/-- Python `x or d` when the default is itself optional (used for the flags
header, whose initial value is `None`). -/
def pyOrOpt (v : Option Str) (d : Option Str) : Option Str :=
  match v with
  | some s => if s.isEmpty then d else some s
  | none => d

/-- Split off everything before the first `'-'`: `none` when the string has
no dash, otherwise the parts before and after the first dash. -/
def splitFirstDash : Str → Option (Str × Str)
  | [] => none
  | c :: cs =>
    if c = '-' then some ([], cs)
    else
      match splitFirstDash cs with
      | none => none
      | some (pre, post) => some (c :: pre, post)

/-- Python `s.split("-", m)`: split on `'-'` at most `m` times, the remainder
(dashes included) is the last field. -/
def splitDashMax : Nat → Str → List Str
  | 0, s => [s]
  | m + 1, s =>
    match splitFirstDash s with
    | none => [s]
    | some (pre, post) => pre :: splitDashMax m post

def STR_ZERO : Str := "0".toList

def STR_ONE : Str := "1".toList

/-- `_SAMPLE_PROPAGATE_VALUES = set(["1", "True", "true", "d"])`. -/
def SAMPLE_PROPAGATE_VALUES : List Str :=
  ["1".toList, "True".toList, "true".toList, "d".toList]

/-- The four header strings `extract` has resolved just before validation:
the working variables `trace_id`, `span_id`, `sampled`, `flags` at the point
where the regex check runs. -/
structure Resolved where
  trace_id : Str
  span_id : Str
  sampled : Str
  flags : Option Str
deriving DecidableEq

/-- The discrete-headers arm of `extract` (the `else` of `if single_header:`):
each of the four working variables is the first carrier value for its key,
`or` its initial value. -/
def resolveDiscrete (get : Getter) : Resolved where
  trace_id := pyOr (extractFirstElement (get TRACE_ID_KEY)) (format_trace_id INVALID_TRACE_ID)
  span_id := pyOr (extractFirstElement (get SPAN_ID_KEY)) (format_span_id INVALID_SPAN_ID)
  sampled := pyOr (extractFirstElement (get SAMPLED_KEY)) STR_ZERO
  flags := pyOrOpt (extractFirstElement (get FLAGS_KEY)) none

/-- Header resolution phase of `extract`: `none` is the early
`return set_span_in_context(INVALID_SPAN)` taken on a malformed combined
header; otherwise the resolved working variables.  In the combined arm
`sampled` was pre-set to `"1"` before the split, so the two-field case keeps
`"1"`, the one-field case overwrites it with the single field, and the ids
keep their sentinel defaults in the one-field case; `flags` stays `None`
throughout the combined arm. -/
def resolveHeaders (get : Getter) : Option Resolved :=
  match extractFirstElement (get SINGLE_HEADER_KEY) with
  | some single =>
    if single.isEmpty then some (resolveDiscrete get)
    else
      match splitDashMax 4 single with
      | [f0] =>
        some { trace_id := format_trace_id INVALID_TRACE_ID
               span_id := format_span_id INVALID_SPAN_ID
               sampled := f0, flags := none }
      | [t, s] => some { trace_id := t, span_id := s, sampled := STR_ONE, flags := none }
      | [t, s, sa] => some { trace_id := t, span_id := s, sampled := sa, flags := none }
      | [t, s, sa, _] => some { trace_id := t, span_id := s, sampled := sa, flags := none }
      | _ => none
  | none => some (resolveDiscrete get)

/-- Validation and construction phase of `extract`, after header resolution.
When either regex fails to full-match, both identifiers are replaced by the
generator's outputs and `sampled` is reset to `"0"` (`flags` is left as it
was); otherwise the ids are parsed base 16.  The sampled bit is set iff the
resulting `sampled` is in `_SAMPLE_PROPAGATE_VALUES` or `flags == "1"`. -/
def finishExtract (r : Option Resolved) (genTrace genSpan : Nat) : SpanContext :=
  match r with
  | none => INVALID_SPAN_CONTEXT
  | some res =>
    let ok := trace_id_regex.accept res.trace_id && span_id_regex.accept res.span_id
    let tid := if ok then int_base16 res.trace_id else genTrace
    let sid := if ok then int_base16 res.span_id else genSpan
    let sampled := if ok then res.sampled else STR_ZERO
    let options : Nat :=
      if SAMPLE_PROPAGATE_VALUES.contains sampled || res.flags == some STR_ONE then
        TraceFlags_SAMPLED
      else 0
    { trace_id := tid, span_id := sid, is_remote := true, trace_flags := options }

/-- `B3Format.extract`: resolution followed by validation/construction. -/
def extract (get : Getter) (genTrace genSpan : Nat) : SpanContext :=
  finishExtract (resolveHeaders get) genTrace genSpan

/-- The active span `inject` reads: its context, and its optional parent
(only the parent's `span_id` is consumed). -/
structure Span where
  context : SpanContext
  parent : Option SpanContext
deriving DecidableEq

/-- `B3Format.inject`, as the ordered list of `set_in_carrier` writes.  The
guard `span.get_context() == trace.INVALID_SPAN_CONTEXT` is modelled from the
spec: equality with the invalid sentinel means trace_id = 0 and span_id = 0,
and then no write happens at all. -/
def inject (span : Span) : List (String × Str) :=
  if span.context.trace_id == INVALID_TRACE_ID && span.context.span_id == INVALID_SPAN_ID then
    []
  else
    let sampled := (TraceFlags_SAMPLED &&& span.context.trace_flags) != 0
    [(TRACE_ID_KEY, format_trace_id span.context.trace_id),
     (SPAN_ID_KEY, format_span_id span.context.span_id)]
    ++ (match span.parent with
        | some parent => [(PARENT_SPAN_ID_KEY, format_span_id parent.span_id)]
        | none => [])
    ++ [(SAMPLED_KEY, if sampled then STR_ONE else STR_ZERO)]

/-- A fresh carrier populated by a list of writes, read back as a getter:
each written key holds the one value written for it (a dict-backed carrier);
absent keys yield `none`. -/
def carrierGet (writes : List (String × Str)) : Getter := fun key =>
  match writes.find? (fun p => p.1 == key) with
  | some p => some [p.2]
  | none => none

/-! ### Regex characterization lemmas -/

/-- A character class full-matches exactly the singleton strings it accepts. -/
lemma accept_cls_iff (p : Char → Bool) (s : Str) :
    (RE.cls p).accept s = true ↔ ∃ c, s = [c] ∧ p c = true := by
  cases s with
  | nil => simp [RE.accept]
  | cons a t =>
    cases t with
    | nil => simp [RE.accept]
    | cons b u => simp [RE.accept]

/-- Sequencing a character class before `r` full-matches exactly the strings
whose head the class accepts and whose tail `r` full-matches. -/
lemma accept_cls_seq (p : Char → Bool) (r : RE) (s : Str) :
    (RE.seq (.cls p) r).accept s = true ↔
      ∃ c t, s = c :: t ∧ p c = true ∧ r.accept t = true := by
  constructor
  · intro h
    simp only [RE.accept, List.any_eq_true, List.mem_range, Bool.and_eq_true] at h
    obtain ⟨i, _, hcls, hr⟩ := h
    obtain ⟨c, htake, hp⟩ := (accept_cls_iff p _).mp hcls
    cases s with
    | nil => simp at htake
    | cons a t =>
      cases i with
      | zero => simp at htake
      | succ j =>
        rw [List.take_succ_cons, List.cons.injEq] at htake
        obtain ⟨rfl, htj⟩ := htake
        have ht : t.drop j = t := by
          rcases List.take_eq_nil_iff.mp htj with h0 | h0 <;> simp [h0]
        rw [List.drop_succ_cons, ht] at hr
        exact ⟨_, _, rfl, hp, hr⟩
  · rintro ⟨c, t, rfl, hp, hr⟩
    simp only [RE.accept, List.any_eq_true, List.mem_range, Bool.and_eq_true]
    refine ⟨1, ?_, ?_, ?_⟩
    · simp
    · rw [show List.take 1 (c :: t) = [c] from by simp]
      exact hp
    · rw [show List.drop 1 (c :: t) = t from by simp]
      exact hr

/-- `p{n}` full-matches exactly the strings of length `n` all of whose
characters the class accepts. -/
lemma accept_pow_iff (p : Char → Bool) (n : Nat) (s : Str) :
    ((RE.cls p).pow n).accept s = true ↔ s.length = n ∧ ∀ c ∈ s, p c = true := by
  induction n generalizing s with
  | zero => cases s <;> simp [RE.pow, RE.accept]
  | succ n ih =>
    rw [RE.pow, accept_cls_seq]
    constructor
    · rintro ⟨c, t, rfl, hp, ht⟩
      obtain ⟨hlen, hall⟩ := (ih t).mp ht
      refine ⟨by simp [hlen], ?_⟩
      intro d hd
      rcases List.mem_cons.mp hd with h | h
      · exact h ▸ hp
      · exact hall d h
    · rintro ⟨hlen, hall⟩
      cases s with
      | nil => simp at hlen
      | cons c t =>
        exact ⟨c, t, rfl, hall c (List.mem_cons_self c t),
          (ih t).mpr ⟨by simpa using hlen, fun d hd => hall d (List.mem_cons_of_mem c hd)⟩⟩

/-! ### Hex rendering and parsing lemmas -/

/-- Reading back the character of a hex digit recovers the digit. -/
lemma hexCharVal_digitChar (d : Nat) (h : d < 16) :
    hexCharVal (Nat.digitChar d) = d := by
  interval_cases d <;> decide

/-- Every hex digit character lies in the `[\da-fA-F]` class. -/
lemma isB3Hex_digitChar (d : Nat) (h : d < 16) :
    isB3Hex (Nat.digitChar d) = true := by
  interval_cases d <;> decide

/-- With enough fuel, core `Nat.toDigitsCore` renders exactly the base-16
digits of a positive number, most significant first, in front of the
accumulator. -/
lemma toDigitsCore_eq_digits (n : Nat) :
    0 < n → ∀ (fuel : Nat) (ds : List Char), n ≤ fuel →
      Nat.toDigitsCore 16 fuel n ds = (Nat.digits 16 n).reverse.map Nat.digitChar ++ ds := by
  induction n using Nat.strong_induction_on with
  | _ n ih =>
    intro hn fuel ds hfuel
    match fuel with
    | 0 => omega
    | f + 1 =>
      rw [Nat.toDigitsCore]
      rw [Nat.digits_def' (by norm_num : (1:ℕ) < 16) hn]
      by_cases h : n / 16 = 0
      · simp [h]
      · have hdivlt : n / 16 < n := Nat.div_lt_self hn (by norm_num)
        have hdivle : n / 16 ≤ f := by omega
        simp only [h, if_false]
        rw [ih (n / 16) hdivlt (Nat.pos_of_ne_zero h) f _ hdivle]
        simp [List.reverse_cons]

/-- `Nat.toDigits 16` agrees with the Mathlib digit expansion: the rendering
of `0` is `"0"`, and of a positive number its base-16 digits in order. -/
lemma toDigits_sixteen (n : Nat) :
    Nat.toDigits 16 n =
      if n = 0 then ['0'] else (Nat.digits 16 n).reverse.map Nat.digitChar := by
  by_cases h : n = 0
  · subst h; rfl
  · rw [Nat.toDigits, toDigitsCore_eq_digits n (Nat.pos_of_ne_zero h) (n + 1) [] (Nat.le_succ n)]
    simp [h]

/-- The hex rendering of a number below `16 ^ w` needs at most `w` digits. -/
lemma length_toDigits_le (w n : Nat) (hw : 0 < w) (hn : n < 16 ^ w) :
    (Nat.toDigits 16 n).length ≤ w := by
  rw [toDigits_sixteen]
  by_cases h : n = 0
  · simp [h]; omega
  · rw [if_neg h]
    rw [List.length_map, List.length_reverse]
    rw [Nat.digits_len 16 n (by norm_num) h]
    have := (Nat.lt_pow_iff_log_lt (by norm_num : 1 < 16) h).mp hn
    omega

/-- The hex rendering of a number is never the empty string. -/
lemma toDigits_ne_nil (n : Nat) : Nat.toDigits 16 n ≠ [] := by
  rw [toDigits_sixteen]
  by_cases h : n = 0
  · simp [h]
  · simp [h, Nat.digits_ne_nil_iff_ne_zero.mpr h]

/-- Every character of the hex rendering lies in the `[\da-fA-F]` class. -/
lemma isB3Hex_of_mem_toDigits (n : Nat) (c : Char) (hc : c ∈ Nat.toDigits 16 n) :
    isB3Hex c = true := by
  rw [toDigits_sixteen] at hc
  by_cases h : n = 0
  · rw [if_pos h] at hc
    simp at hc
    subst hc; decide
  · rw [if_neg h] at hc
    obtain ⟨d, hd, rfl⟩ := List.mem_map.mp hc
    rw [List.mem_reverse] at hd
    exact isB3Hex_digitChar d (Nat.digits_lt_base (by norm_num) hd)

/-- Leading zero characters do not change the parsed value. -/
lemma int_base16_replicate_zero (k : Nat) (s : Str) :
    int_base16 (List.replicate k '0' ++ s) = int_base16 s := by
  have h0 : List.foldl (fun a c => 16 * a + hexCharVal c) 0 (List.replicate k '0') = 0 := by
    induction k with
    | zero => rfl
    | succ k ihk =>
      rw [List.replicate_succ, List.foldl_cons]
      have : 16 * 0 + hexCharVal '0' = 0 := by decide
      rw [this, ihk]
  unfold int_base16
  rw [List.foldl_append, h0]

/-- Parsing the base-16 digit rendering of `n` recovers `n`. -/
lemma int_base16_digits (n : Nat) :
    int_base16 ((Nat.digits 16 n).reverse.map Nat.digitChar) = n := by
  induction n using Nat.strong_induction_on with
  | _ n ih =>
    by_cases h : n = 0
    · subst h; simp [int_base16]
    · rw [Nat.digits_def' (by norm_num : (1:ℕ) < 16) (Nat.pos_of_ne_zero h)]
      rw [List.reverse_cons, List.map_append]
      unfold int_base16
      rw [List.foldl_append]
      have hdivlt : n / 16 < n := Nat.div_lt_self (Nat.pos_of_ne_zero h) (by norm_num)
      have ih' := ih (n / 16) hdivlt
      unfold int_base16 at ih'
      rw [ih']
      simp only [List.map_cons, List.map_nil, List.foldl_cons, List.foldl_nil]
      rw [hexCharVal_digitChar (n % 16) (Nat.mod_lt n (by norm_num))]
      omega

/-- `int(s, 16)` inverts the unpadded hex rendering. -/
lemma int_base16_toDigits (n : Nat) : int_base16 (Nat.toDigits 16 n) = n := by
  rw [toDigits_sixteen]
  by_cases h : n = 0
  · subst h; decide
  · rw [if_neg h]; exact int_base16_digits n

/-- `int(s, 16)` inverts `format_trace_id`, for every value. -/
lemma int_base16_format_trace_id (n : Nat) : int_base16 (format_trace_id n) = n := by
  unfold format_trace_id
  rw [int_base16_replicate_zero, int_base16_toDigits]

/-- `int(s, 16)` inverts `format_span_id`, for every value. -/
lemma int_base16_format_span_id (n : Nat) : int_base16 (format_span_id n) = n := by
  unfold format_span_id
  rw [int_base16_replicate_zero, int_base16_toDigits]

/-- A formatted trace id of a 128-bit value is exactly 32 characters. -/
lemma format_trace_id_length (n : Nat) (h : n < 2 ^ 128) :
    (format_trace_id n).length = 32 := by
  have h16 : n < 16 ^ 32 := by
    have : (16:ℕ) ^ 32 = 2 ^ 128 := by norm_num
    omega
  have hle := length_toDigits_le 32 n (by norm_num) h16
  unfold format_trace_id
  rw [List.length_append, List.length_replicate]
  omega

/-- A formatted span id of a 64-bit value is exactly 16 characters. -/
lemma format_span_id_length (n : Nat) (h : n < 2 ^ 64) :
    (format_span_id n).length = 16 := by
  have h16 : n < 16 ^ 16 := by
    have : (16:ℕ) ^ 16 = 2 ^ 64 := by norm_num
    omega
  have hle := length_toDigits_le 16 n (by norm_num) h16
  unfold format_span_id
  rw [List.length_append, List.length_replicate]
  omega

/-- Every character of a formatted trace id is in the hex class. -/
lemma format_trace_id_hex (n : Nat) (c : Char) (hc : c ∈ format_trace_id n) :
    isB3Hex c = true := by
  unfold format_trace_id at hc
  rcases List.mem_append.mp hc with h | h
  · rw [List.eq_of_mem_replicate h]; decide
  · exact isB3Hex_of_mem_toDigits n c h

/-- Every character of a formatted span id is in the hex class. -/
lemma format_span_id_hex (n : Nat) (c : Char) (hc : c ∈ format_span_id n) :
    isB3Hex c = true := by
  unfold format_span_id at hc
  rcases List.mem_append.mp hc with h | h
  · rw [List.eq_of_mem_replicate h]; decide
  · exact isB3Hex_of_mem_toDigits n c h

/-- A formatted trace id is never empty. -/
lemma format_trace_id_ne_empty (n : Nat) : (format_trace_id n).isEmpty = false := by
  rw [List.isEmpty_eq_false_iff_exists_mem]
  obtain ⟨c, hc⟩ := List.exists_mem_of_ne_nil _ (toDigits_ne_nil n)
  exact ⟨c, by unfold format_trace_id; exact List.mem_append_right _ hc⟩

/-- A formatted span id is never empty. -/
lemma format_span_id_ne_empty (n : Nat) : (format_span_id n).isEmpty = false := by
  rw [List.isEmpty_eq_false_iff_exists_mem]
  obtain ⟨c, hc⟩ := List.exists_mem_of_ne_nil _ (toDigits_ne_nil n)
  exact ⟨c, by unfold format_span_id; exact List.mem_append_right _ hc⟩

/-- Alternation accepts a string iff either branch does. -/
lemma accept_alt (a b : RE) (s : Str) :
    (RE.alt a b).accept s = (a.accept s || b.accept s) := rfl

/-- The trace id regex accepts every formatted 128-bit trace id. -/
lemma trace_id_regex_format (n : Nat) (h : n < 2 ^ 128) :
    trace_id_regex.accept (format_trace_id n) = true := by
  unfold trace_id_regex
  have h32 : ((RE.cls isB3Hex).pow 32).accept (format_trace_id n) = true :=
    (accept_pow_iff isB3Hex 32 _).mpr ⟨format_trace_id_length n h, format_trace_id_hex n⟩
  rw [accept_alt, h32, Bool.or_true]

/-- The span id regex accepts every formatted 64-bit span id. -/
lemma span_id_regex_format (n : Nat) (h : n < 2 ^ 64) :
    span_id_regex.accept (format_span_id n) = true := by
  unfold span_id_regex
  exact (accept_pow_iff isB3Hex 16 _).mpr ⟨format_span_id_length n h, format_span_id_hex n⟩

/-! ### Characterization of the validation/construction phase -/

/-- When either id string fails its regex, the generator's pair is used,
`sampled` is reset to `"0"`, and only the flags header can still set the
sampled bit. -/
lemma finishExtract_invalid (res : Resolved) (genTrace genSpan : Nat)
    (hbad : trace_id_regex.accept res.trace_id = false ∨
      span_id_regex.accept res.span_id = false) :
    finishExtract (some res) genTrace genSpan =
      { trace_id := genTrace, span_id := genSpan, is_remote := true,
        trace_flags := if res.flags == some STR_ONE then TraceFlags_SAMPLED else 0 } := by
  unfold finishExtract
  have hok : (trace_id_regex.accept res.trace_id && span_id_regex.accept res.span_id) = false := by
    rcases hbad with h | h <;> simp [h]
  have hz : SAMPLE_PROPAGATE_VALUES.contains STR_ZERO = false := by decide
  simp only [hok, if_false, Bool.false_eq_true, hz, Bool.false_or]

/-- When both id strings pass their regexes, they are parsed base 16 and the
sampled bit follows the resolved sampled/flags values. -/
lemma finishExtract_valid (res : Resolved) (genTrace genSpan : Nat)
    (h1 : trace_id_regex.accept res.trace_id = true)
    (h2 : span_id_regex.accept res.span_id = true) :
    finishExtract (some res) genTrace genSpan =
      { trace_id := int_base16 res.trace_id, span_id := int_base16 res.span_id,
        is_remote := true,
        trace_flags := if SAMPLE_PROPAGATE_VALUES.contains res.sampled
            || res.flags == some STR_ONE then TraceFlags_SAMPLED else 0 } := by
  unfold finishExtract
  simp only [h1, h2, Bool.and_self, if_true]

/-- The sampled flag of a context whose flags are an if-then-else on the
sampled bit. -/
lemma sampledFlag_ite (t s : Nat) (r : Bool) (b : Bool) :
    sampledFlag
      { trace_id := t, span_id := s, is_remote := r,
        trace_flags := if b then TraceFlags_SAMPLED else 0 } = b := by
  cases b <;> simp [sampledFlag, TraceFlags_SAMPLED]

/-- Unfolding of `resolveHeaders` once the combined header's first value is
known. -/
lemma resolveHeaders_single (get : Getter) (single : Str)
    (hs : extractFirstElement (get SINGLE_HEADER_KEY) = some single) :
    resolveHeaders get =
      if single.isEmpty then some (resolveDiscrete get)
      else
        match splitDashMax 4 single with
        | [f0] =>
          some { trace_id := format_trace_id INVALID_TRACE_ID
                 span_id := format_span_id INVALID_SPAN_ID
                 sampled := f0, flags := none }
        | [t, s] => some { trace_id := t, span_id := s, sampled := STR_ONE, flags := none }
        | [t, s, sa] => some { trace_id := t, span_id := s, sampled := sa, flags := none }
        | [t, s, sa, _] => some { trace_id := t, span_id := s, sampled := sa, flags := none }
        | _ => none := by
  unfold resolveHeaders
  rw [hs]

/-! ### Claim theorems -/

/-- The spec's notion of a hex digit, stated from its words for comparison
with the source's character class: the ASCII characters 0-9, a-f and A-F. -/
def isAsciiHex (c : Char) : Bool :=
  ('0' ≤ c && c ≤ '9') || ('a' ≤ c && c ≤ 'f') || ('A' ≤ c && c ≤ 'F')

/-- Sixteen copies of the Arabic-Indic digit five (code point 1637). -/
def arabicFives : Str := List.replicate 16 (Char.ofNat 1637)

/-- Counterexample to claim C8 as stated: both validation regexes accept a
string of sixteen Arabic-Indic digits, which does not consist of hex digits —
the pattern's `\d` matches every Unicode decimal digit, not only 0-9 — and
the subsequent base-16 parse reads each such digit at its decimal value. -/
theorem C8_cex :
    trace_id_regex.accept arabicFives = true ∧
    span_id_regex.accept arabicFives = true ∧
    arabicFives.all isAsciiHex = false ∧
    int_base16 arabicFives = 6148914691236517205 := by
  refine ⟨by decide, by decide, by decide, by decide⟩

/-- Claim C8 as amended: the trace id validation accepts a string iff every
character is in the class `[\da-fA-F]` — a Unicode decimal digit or one of
a-f, A-F — and its length is exactly 16 or exactly 32; the span id
validation accepts a string iff every character is in that class and its
length is exactly 16. -/
theorem C8_id_validation :
    (∀ s : Str, trace_id_regex.accept s = true ↔
      ((∀ c ∈ s, isB3Hex c = true) ∧ (s.length = 16 ∨ s.length = 32))) ∧
    (∀ s : Str, span_id_regex.accept s = true ↔
      ((∀ c ∈ s, isB3Hex c = true) ∧ s.length = 16)) := by
  constructor
  · intro s
    unfold trace_id_regex
    rw [accept_alt, Bool.or_eq_true, accept_pow_iff, accept_pow_iff]
    tauto
  · intro s
    unfold span_id_regex
    rw [accept_pow_iff]
    tauto

/-- Claim C4: injecting a span whose context carries the invalid sentinel
identifiers (trace_id = 0 and span_id = 0) performs zero setter calls. -/
theorem C4_inject_noop (span : Span)
    (ht : span.context.trace_id = 0) (hs : span.context.span_id = 0) :
    inject span = [] := by
  unfold inject
  rw [if_pos]
  rw [ht, hs]
  decide

/-- Witness for C4 at a concrete sentinel span. -/
theorem C4_inject_noop_witness :
    inject
      { context := { trace_id := 0, span_id := 0, is_remote := false, trace_flags := 1 },
        parent := none } = [] :=
  C4_inject_noop _ rfl rfl

/-- Claim C9: injecting a valid (non-sentinel) context always writes the
trace-id, span-id and sampled headers; it writes the parent-span-id header
with `format_span_id(parent.span_id)` exactly when the span has a parent,
and no write for that key occurs at all when it has none. -/
theorem C9_inject_writes (span : Span)
    (h : ¬(span.context.trace_id = 0 ∧ span.context.span_id = 0)) :
    (TRACE_ID_KEY, format_trace_id span.context.trace_id) ∈ inject span ∧
    (SPAN_ID_KEY, format_span_id span.context.span_id) ∈ inject span ∧
    (SAMPLED_KEY, if sampledFlag span.context then STR_ONE else STR_ZERO) ∈ inject span ∧
    (∀ p, span.parent = some p →
      (PARENT_SPAN_ID_KEY, format_span_id p.span_id) ∈ inject span) ∧
    (span.parent = none → ∀ v, (PARENT_SPAN_ID_KEY, v) ∉ inject span) := by
  have hcond : (span.context.trace_id == INVALID_TRACE_ID &&
      span.context.span_id == INVALID_SPAN_ID) = false := by
    rw [Bool.and_eq_false_iff]
    rcases Decidable.not_and_iff_or_not.mp h with hcase | hcase
    · exact Or.inl (by simpa [INVALID_TRACE_ID] using hcase)
    · exact Or.inr (by simpa [INVALID_SPAN_ID] using hcase)
  have hkey1 : PARENT_SPAN_ID_KEY ≠ TRACE_ID_KEY := by decide
  have hkey2 : PARENT_SPAN_ID_KEY ≠ SPAN_ID_KEY := by decide
  have hkey3 : PARENT_SPAN_ID_KEY ≠ SAMPLED_KEY := by decide
  unfold inject
  rw [hcond]
  refine ⟨?_, ?_, ?_, ?_, ?_⟩
  · simp [sampledFlag]
  · simp [sampledFlag]
  · simp [sampledFlag]
  · intro p hp
    rw [hp]
    simp [sampledFlag]
  · intro hp v
    rw [hp]
    simp [sampledFlag, Prod.ext_iff, hkey1, hkey2, hkey3]

/-- A concrete parentless span with valid identifiers. -/
def spanW9 : Span :=
  { context := { trace_id := 1, span_id := 2, is_remote := false, trace_flags := 1 },
    parent := none }

/-- Witness for C9 at the concrete parentless span `spanW9`. -/
theorem C9_inject_writes_witness :
    (TRACE_ID_KEY, format_trace_id spanW9.context.trace_id) ∈ inject spanW9 ∧
    (SPAN_ID_KEY, format_span_id spanW9.context.span_id) ∈ inject spanW9 ∧
    (SAMPLED_KEY, if sampledFlag spanW9.context then STR_ONE else STR_ZERO) ∈ inject spanW9 ∧
    (∀ p, spanW9.parent = some p →
      (PARENT_SPAN_ID_KEY, format_span_id p.span_id) ∈ inject spanW9) ∧
    (spanW9.parent = none → ∀ v, (PARENT_SPAN_ID_KEY, v) ∉ inject spanW9) :=
  C9_inject_writes spanW9 (by decide)

/-- Claim C5: a non-empty combined header whose dash-split has a field count
other than 1, 2, 3 or 4 makes `extract` return the invalid sentinel context
immediately, independent of the discrete headers and of the generator. -/
theorem C5_malformed_single (get : Getter) (genTrace genSpan : Nat) (single : Str)
    (hs : extractFirstElement (get SINGLE_HEADER_KEY) = some single)
    (hne : single.isEmpty = false)
    (hlen : ¬((splitDashMax 4 single).length = 1 ∨ (splitDashMax 4 single).length = 2 ∨
      (splitDashMax 4 single).length = 3 ∨ (splitDashMax 4 single).length = 4)) :
    extract get genTrace genSpan = INVALID_SPAN_CONTEXT := by
  unfold extract
  rw [resolveHeaders_single get single hs, hne]
  simp only [Bool.false_eq_true, if_false]
  rcases h5 : splitDashMax 4 single with _ | ⟨f0, _ | ⟨f1, _ | ⟨f2, _ | ⟨f3, _ | ⟨f4, rest⟩⟩⟩⟩⟩
  · rfl
  · exact absurd (Or.inl (by rw [h5]; rfl)) hlen
  · exact absurd (Or.inr (Or.inl (by rw [h5]; rfl))) hlen
  · exact absurd (Or.inr (Or.inr (Or.inl (by rw [h5]; rfl)))) hlen
  · exact absurd (Or.inr (Or.inr (Or.inr (by rw [h5]; rfl)))) hlen
  · rfl

/-- A concrete carrier whose combined header has five fields and whose
discrete trace id header is valid. -/
def getC5 : Getter := fun key =>
  if key == SINGLE_HEADER_KEY then some ["a-b-c-d-e".toList]
  else if key == TRACE_ID_KEY then some ["0123456789abcdef".toList]
  else if key == SPAN_ID_KEY then some ["0123456789abcdef".toList]
  else none

/-- Witness for C5 at the concrete malformed carrier `getC5`. -/
theorem C5_malformed_single_witness :
    extract getC5 7 8 = INVALID_SPAN_CONTEXT :=
  C5_malformed_single getC5 7 8 ("a-b-c-d-e".toList) (by decide) (by decide) (by decide)

/-- Claim C6: when the combined header is present with a non-empty first
value, `extract` is determined by that value alone: two carriers agreeing on
the combined header extract identically, whatever their discrete headers. -/
theorem C6_single_precedence (g1 g2 : Getter) (genTrace genSpan : Nat) (single : Str)
    (hsame : g1 SINGLE_HEADER_KEY = g2 SINGLE_HEADER_KEY)
    (hs : extractFirstElement (g1 SINGLE_HEADER_KEY) = some single)
    (hne : single.isEmpty = false) :
    extract g1 genTrace genSpan = extract g2 genTrace genSpan := by
  have hs2 : extractFirstElement (g2 SINGLE_HEADER_KEY) = some single := by
    rw [← hsame]; exact hs
  unfold extract
  rw [resolveHeaders_single g1 single hs, resolveHeaders_single g2 single hs2, hne]
  simp only [Bool.false_eq_true, if_false]

/-- A concrete carrier with a two-field combined header and one set of
discrete headers. -/
def getC6a : Getter := fun key =>
  if key == SINGLE_HEADER_KEY then some ["000000000000000000000000000000aa-00000000000000bb".toList]
  else if key == TRACE_ID_KEY then some ["000000000000000000000000000000cc".toList]
  else if key == SPAN_ID_KEY then some ["00000000000000dd".toList]
  else if key == SAMPLED_KEY then some ["0".toList]
  else none

/-- The same combined header as `getC6a` with entirely different discrete
headers. -/
def getC6b : Getter := fun key =>
  if key == SINGLE_HEADER_KEY then some ["000000000000000000000000000000aa-00000000000000bb".toList]
  else if key == FLAGS_KEY then some ["1".toList]
  else none

/-- Witness for C6 at the concrete carriers `getC6a` and `getC6b`. -/
theorem C6_single_precedence_witness :
    extract getC6a 7 8 = extract getC6b 7 8 :=
  C6_single_precedence getC6a getC6b 7 8
    ("000000000000000000000000000000aa-00000000000000bb".toList) rfl (by decide) (by decide)

/-- A carrier with one key masked off: the accessor answers `none` for `r`
and defers to `get` for every other key. -/
def withoutKey (get : Getter) (r : String) : Getter := fun key =>
  if key == r then none else get key

/-- Reading the masked key yields nothing. -/
lemma withoutKey_self (get : Getter) (r : String) : withoutKey get r r = none := by
  unfold withoutKey
  simp

/-- Reading any other key defers to the underlying carrier. -/
lemma withoutKey_ne (get : Getter) (r k : String) (h : (k == r) = false) :
    withoutKey get r k = get k := by
  unfold withoutKey
  rw [h]
  simp

/-- Claim C10: when the combined header's first value is the empty string, or
the accessor yields no value for it, `extract` behaves exactly as if the
combined header were absent: it resolves the four discrete headers and takes
no short-circuit. -/
theorem C10_empty_single (get : Getter) (genTrace genSpan : Nat)
    (h : extractFirstElement (get SINGLE_HEADER_KEY) = none ∨
      extractFirstElement (get SINGLE_HEADER_KEY) = some []) :
    resolveHeaders get = some (resolveDiscrete get) ∧
    extract get genTrace genSpan =
      extract (withoutKey get SINGLE_HEADER_KEY) genTrace genSpan := by
  have hres : resolveHeaders get = some (resolveDiscrete get) := by
    unfold resolveHeaders
    rcases h with h | h
    · rw [h]
    · rw [h]
      rfl
  refine ⟨hres, ?_⟩
  have hres2 : resolveHeaders (withoutKey get SINGLE_HEADER_KEY) =
      some (resolveDiscrete (withoutKey get SINGLE_HEADER_KEY)) := by
    unfold resolveHeaders
    rw [withoutKey_self get SINGLE_HEADER_KEY]
    rfl
  have hdisc : resolveDiscrete (withoutKey get SINGLE_HEADER_KEY) = resolveDiscrete get := by
    unfold resolveDiscrete
    rw [withoutKey_ne get SINGLE_HEADER_KEY TRACE_ID_KEY (by decide)]
    rw [withoutKey_ne get SINGLE_HEADER_KEY SPAN_ID_KEY (by decide)]
    rw [withoutKey_ne get SINGLE_HEADER_KEY SAMPLED_KEY (by decide)]
    rw [withoutKey_ne get SINGLE_HEADER_KEY FLAGS_KEY (by decide)]
  unfold extract
  rw [hres, hres2, hdisc]

/-- A concrete carrier whose combined header is present but empty, with a
valid discrete pair. -/
def getC10 : Getter := fun key =>
  if key == SINGLE_HEADER_KEY then some [[]]
  else if key == TRACE_ID_KEY then some ["0123456789abcdef".toList]
  else if key == SPAN_ID_KEY then some ["00000000000000dd".toList]
  else none

/-- Witness for C10 at the concrete carrier `getC10`. -/
theorem C10_empty_single_witness :
    resolveHeaders getC10 = some (resolveDiscrete getC10) ∧
    extract getC10 7 8 = extract (withoutKey getC10 SINGLE_HEADER_KEY) 7 8 :=
  C10_empty_single getC10 7 8 (Or.inr (by decide))

/-- Claim C7: off the malformed-header short-circuit, the sampled flag of the
extracted context is true iff the resolved sampled-indicator string (after
the validation step, which resets it to `"0"` when an id fails its regex) is
one of `"1"`, `"True"`, `"true"`, `"d"`, or the resolved flags value equals
exactly `"1"`. -/
theorem C7_sampled_iff (get : Getter) (genTrace genSpan : Nat) (res : Resolved)
    (h : resolveHeaders get = some res) :
    sampledFlag (extract get genTrace genSpan) =
      (SAMPLE_PROPAGATE_VALUES.contains
          (if trace_id_regex.accept res.trace_id && span_id_regex.accept res.span_id
            then res.sampled else STR_ZERO)
        || res.flags == some STR_ONE) := by
  unfold extract
  rw [h]
  by_cases hok : (trace_id_regex.accept res.trace_id && span_id_regex.accept res.span_id) = true
  · obtain ⟨h1, h2⟩ := Bool.and_eq_true_iff.mp hok
    rw [finishExtract_valid res genTrace genSpan h1 h2, hok]
    simp only [sampledFlag_ite, eq_self_iff_true, if_true]
  · have hbad : trace_id_regex.accept res.trace_id = false ∨
        span_id_regex.accept res.span_id = false := by
      rcases Bool.and_eq_false_iff.mp (Bool.eq_false_iff.mpr hok) with h' | h'
      · exact Or.inl h'
      · exact Or.inr h'
    rw [finishExtract_invalid res genTrace genSpan hbad]
    rw [Bool.eq_false_iff.mpr hok]
    have hz : SAMPLE_PROPAGATE_VALUES.contains STR_ZERO = false := by decide
    simp only [sampledFlag_ite, Bool.false_eq_true, if_false, hz, Bool.false_or]

/-- A concrete carrier with only a discrete sampled header `"true"`. -/
def getC7 : Getter := fun key =>
  if key == SAMPLED_KEY then some ["true".toList] else none

/-- Witness for C7 at the concrete carrier `getC7`. -/
theorem C7_sampled_iff_witness :
    sampledFlag (extract getC7 7 8) =
      (SAMPLE_PROPAGATE_VALUES.contains
          (if trace_id_regex.accept (resolveDiscrete getC7).trace_id &&
              span_id_regex.accept (resolveDiscrete getC7).span_id
            then (resolveDiscrete getC7).sampled else STR_ZERO)
        || (resolveDiscrete getC7).flags == some STR_ONE) :=
  C7_sampled_iff getC7 7 8 (resolveDiscrete getC7) (by decide)

/-- A concrete carrier with a non-hex discrete trace id, a valid discrete
span id, a truthy sampled header and the debug flags header set. -/
def getC3 : Getter := fun key =>
  if key == TRACE_ID_KEY then some ["nothex".toList]
  else if key == SPAN_ID_KEY then some ["0123456789abcdef".toList]
  else if key == SAMPLED_KEY then some ["true".toList]
  else if key == FLAGS_KEY then some [STR_ONE]
  else none

/-- Counterexample to claim C3: on a carrier whose trace id fails validation
but whose flags header is `"1"`, `extract` does return the generator's pair
(7, 8), yet its sampled flag is true — not false as the claim requires
regardless of the flags header. -/
theorem C3_cex :
    extract getC3 7 8 =
      { trace_id := 7, span_id := 8, is_remote := true, trace_flags := 1 } ∧
    sampledFlag (extract getC3 7 8) = true := by
  constructor
  · decide
  · decide

/-- Claim C3 as amended: when the resolved trace id string fails the
16-or-32-hex validation or the resolved span id string fails the 16-hex
validation, `extract` returns the generator's fresh pair and resets the
sampled indicator, so the sampled flag is false regardless of the sampled
header — but the flags header is not discarded: the sampled flag is true
exactly when the resolved flags value equals `"1"`. -/
theorem C3_generator_fallback (get : Getter) (genTrace genSpan : Nat) (res : Resolved)
    (h : resolveHeaders get = some res)
    (hbad : trace_id_regex.accept res.trace_id = false ∨
      span_id_regex.accept res.span_id = false) :
    extract get genTrace genSpan =
      { trace_id := genTrace, span_id := genSpan, is_remote := true,
        trace_flags := if res.flags == some STR_ONE then TraceFlags_SAMPLED else 0 } := by
  unfold extract
  rw [h]
  exact finishExtract_invalid res genTrace genSpan hbad

/-- Witness for the amended C3 at the concrete carrier `getC3`. -/
theorem C3_generator_fallback_witness :
    extract getC3 7 8 =
      { trace_id := 7, span_id := 8, is_remote := true,
        trace_flags := if (resolveDiscrete getC3).flags == some STR_ONE
          then TraceFlags_SAMPLED else 0 } :=
  C3_generator_fallback getC3 7 8 (resolveDiscrete getC3) (by decide) (Or.inl (by decide))

/-- A concrete carrier with only a discrete sampled header `"1"` and no
identifier headers at all. -/
def getC1 : Getter := fun key =>
  if key == SAMPLED_KEY then some [STR_ONE] else none

/-- Counterexample to claim C1: on a carrier carrying only a sampled header,
`extract` returns the all-zero sentinel pair (no identifier was decoded from
a carrier value, and the generator's 7 and 8 are unused) with the sampled
flag set — a combination outside both of the claim's cases, whose sentinel
case demands `sampled = false`. -/
theorem C1_cex :
    extract getC1 7 8 =
      { trace_id := 0, span_id := 0, is_remote := true, trace_flags := 1 } ∧
    sampledFlag (extract getC1 7 8) = true := by
  constructor
  · decide
  · decide

/-- Claim C1 as amended: every context `extract` returns is of one of three
shapes — (a) both resolved id strings (carrier values or the zero-padded
sentinel defaults) pass their regexes and are decoded base 16, with the
sampled flag derived from the resolved sampled/flags values; (b) an id
string fails its regex and the context is the generator's fresh pair, with
the sampled flag true only when the resolved flags value is exactly `"1"`;
(c) the malformed-combined-header short-circuit's invalid sentinel context
with the sampled flag unset. -/
theorem C1_extract_reachable (get : Getter) (genTrace genSpan : Nat) :
    (resolveHeaders get = none ∧
      extract get genTrace genSpan = INVALID_SPAN_CONTEXT) ∨
    (∃ res, resolveHeaders get = some res ∧
      (trace_id_regex.accept res.trace_id = false ∨
        span_id_regex.accept res.span_id = false) ∧
      extract get genTrace genSpan =
        { trace_id := genTrace, span_id := genSpan, is_remote := true,
          trace_flags := if res.flags == some STR_ONE then TraceFlags_SAMPLED else 0 }) ∨
    (∃ res, resolveHeaders get = some res ∧
      trace_id_regex.accept res.trace_id = true ∧
      span_id_regex.accept res.span_id = true ∧
      extract get genTrace genSpan =
        { trace_id := int_base16 res.trace_id, span_id := int_base16 res.span_id,
          is_remote := true,
          trace_flags := if SAMPLE_PROPAGATE_VALUES.contains res.sampled
              || res.flags == some STR_ONE then TraceFlags_SAMPLED else 0 }) := by
  rcases hres : resolveHeaders get with _ | res
  · refine Or.inl ⟨rfl, ?_⟩
    unfold extract
    rw [hres]
    rfl
  · by_cases hok : (trace_id_regex.accept res.trace_id && span_id_regex.accept res.span_id) = true
    · obtain ⟨h1, h2⟩ := Bool.and_eq_true_iff.mp hok
      refine Or.inr (Or.inr ⟨res, rfl, h1, h2, ?_⟩)
      unfold extract
      rw [hres]
      exact finishExtract_valid res genTrace genSpan h1 h2
    · have hbad : trace_id_regex.accept res.trace_id = false ∨
          span_id_regex.accept res.span_id = false := by
        rcases Bool.and_eq_false_iff.mp (Bool.eq_false_iff.mpr hok) with h' | h'
        · exact Or.inl h'
        · exact Or.inr h'
      refine Or.inr (Or.inl ⟨res, rfl, hbad, ?_⟩)
      unfold extract
      rw [hres]
      exact finishExtract_invalid res genTrace genSpan hbad

/-- Python `or` keeps a non-empty first value. -/
lemma pyOr_some (s d : Str) (h : s.isEmpty = false) : pyOr (some s) d = s := by
  simp only [pyOr, h, Bool.false_eq_true, if_false]

/-- Resolution of the discrete headers against a carrier holding exactly the
three non-empty values `inject` writes for a parentless span. -/
lemma resolveDiscrete_carrier3 (a bb c : Str)
    (ha : a.isEmpty = false) (hbb : bb.isEmpty = false) (hc : c.isEmpty = false) :
    resolveDiscrete (carrierGet [(TRACE_ID_KEY, a), (SPAN_ID_KEY, bb), (SAMPLED_KEY, c)]) =
      { trace_id := a, span_id := bb, sampled := c, flags := none } := by
  have h1 : extractFirstElement
      (carrierGet [(TRACE_ID_KEY, a), (SPAN_ID_KEY, bb), (SAMPLED_KEY, c)] TRACE_ID_KEY) =
      some a := rfl
  have h2 : extractFirstElement
      (carrierGet [(TRACE_ID_KEY, a), (SPAN_ID_KEY, bb), (SAMPLED_KEY, c)] SPAN_ID_KEY) =
      some bb := rfl
  have h3 : extractFirstElement
      (carrierGet [(TRACE_ID_KEY, a), (SPAN_ID_KEY, bb), (SAMPLED_KEY, c)] SAMPLED_KEY) =
      some c := rfl
  have h4 : extractFirstElement
      (carrierGet [(TRACE_ID_KEY, a), (SPAN_ID_KEY, bb), (SAMPLED_KEY, c)] FLAGS_KEY) =
      none := rfl
  unfold resolveDiscrete
  rw [h1, h2, h3, h4]
  rw [pyOr_some a _ ha, pyOr_some bb _ hbb, pyOr_some c _ hc]
  rfl

/-- Such a carrier has no combined header, so resolution takes the
discrete-headers arm. -/
lemma resolveHeaders_carrier3 (a bb c : Str) :
    resolveHeaders (carrierGet [(TRACE_ID_KEY, a), (SPAN_ID_KEY, bb), (SAMPLED_KEY, c)]) =
      some (resolveDiscrete (carrierGet [(TRACE_ID_KEY, a), (SPAN_ID_KEY, bb), (SAMPLED_KEY, c)])) := by
  unfold resolveHeaders
  rw [show extractFirstElement
    (carrierGet [(TRACE_ID_KEY, a), (SPAN_ID_KEY, bb), (SAMPLED_KEY, c)] SINGLE_HEADER_KEY) =
    none from rfl]

/-- Claim C2: for every valid (nonzero) 128-bit trace id and 64-bit span id,
any flags and any remote bit, injecting a parentless span into an empty
carrier and extracting from that same carrier yields a context with the
identical trace id, identical span id, and identical sampled flag. -/
theorem C2_round_trip (t s : Nat) (remote : Bool) (flags genTrace genSpan : Nat)
    (ht0 : 0 < t) (ht : t < 2 ^ 128) (hs0 : 0 < s) (hs : s < 2 ^ 64) :
    (extract (carrierGet (inject ⟨⟨t, s, remote, flags⟩, none⟩)) genTrace genSpan).trace_id = t ∧
    (extract (carrierGet (inject ⟨⟨t, s, remote, flags⟩, none⟩)) genTrace genSpan).span_id = s ∧
    sampledFlag (extract (carrierGet (inject ⟨⟨t, s, remote, flags⟩, none⟩)) genTrace genSpan) =
      sampledFlag ⟨t, s, remote, flags⟩ := by
  have hcond : ((t == INVALID_TRACE_ID) && (s == INVALID_SPAN_ID)) = false := by
    rw [Bool.and_eq_false_iff]
    refine Or.inl ?_
    simp only [INVALID_TRACE_ID, beq_eq_false_iff_ne]
    omega
  have hW : inject ⟨⟨t, s, remote, flags⟩, none⟩ =
      [(TRACE_ID_KEY, format_trace_id t), (SPAN_ID_KEY, format_span_id s),
        (SAMPLED_KEY, if sampledFlag ⟨t, s, remote, flags⟩ then STR_ONE else STR_ZERO)] := by
    unfold inject
    dsimp only
    rw [hcond]
    simp only [Bool.false_eq_true, if_false]
    rfl
  have hsampzero : (if sampledFlag ⟨t, s, remote, flags⟩ then STR_ONE
      else STR_ZERO).isEmpty = false := by
    cases sampledFlag ⟨t, s, remote, flags⟩ <;> decide
  have hE : extract (carrierGet (inject ⟨⟨t, s, remote, flags⟩, none⟩)) genTrace genSpan =
      { trace_id := t, span_id := s, is_remote := true,
        trace_flags := if sampledFlag ⟨t, s, remote, flags⟩ then TraceFlags_SAMPLED else 0 } := by
    rw [hW]
    unfold extract
    rw [resolveHeaders_carrier3]
    rw [resolveDiscrete_carrier3 _ _ _ (format_trace_id_ne_empty t)
      (format_span_id_ne_empty s) hsampzero]
    rw [finishExtract_valid _ genTrace genSpan (trace_id_regex_format t ht)
      (span_id_regex_format s hs)]
    rw [show int_base16 (Resolved.trace_id
      { trace_id := format_trace_id t, span_id := format_span_id s
        sampled := if sampledFlag ⟨t, s, remote, flags⟩ then STR_ONE else STR_ZERO
        flags := none }) = t from int_base16_format_trace_id t]
    rw [show int_base16 (Resolved.span_id
      { trace_id := format_trace_id t, span_id := format_span_id s
        sampled := if sampledFlag ⟨t, s, remote, flags⟩ then STR_ONE else STR_ZERO
        flags := none }) = s from int_base16_format_span_id s]
    have hcontains : (SAMPLE_PROPAGATE_VALUES.contains (Resolved.sampled
        { trace_id := format_trace_id t, span_id := format_span_id s
          sampled := if sampledFlag ⟨t, s, remote, flags⟩ then STR_ONE else STR_ZERO
          flags := none }) || (Resolved.flags
        { trace_id := format_trace_id t, span_id := format_span_id s
          sampled := if sampledFlag ⟨t, s, remote, flags⟩ then STR_ONE else STR_ZERO
          flags := none } == some STR_ONE)) = sampledFlag ⟨t, s, remote, flags⟩ := by
      cases hsb : sampledFlag ⟨t, s, remote, flags⟩
      · dsimp only
        decide
      · dsimp only
        decide
    rw [hcontains]
  refine ⟨?_, ?_, ?_⟩
  · rw [hE]
  · rw [hE]
  · rw [hE]
    exact sampledFlag_ite _ _ _ _

/-- Witness for C2 at a concrete sampled context. -/
theorem C2_round_trip_witness :
    (extract (carrierGet (inject ⟨⟨300, 40, false, 1⟩, none⟩)) 7 8).trace_id = 300 ∧
    (extract (carrierGet (inject ⟨⟨300, 40, false, 1⟩, none⟩)) 7 8).span_id = 40 ∧
    sampledFlag (extract (carrierGet (inject ⟨⟨300, 40, false, 1⟩, none⟩)) 7 8) =
      sampledFlag ⟨300, 40, false, 1⟩ :=
  C2_round_trip 300 40 false 1 7 8 (by norm_num) (by norm_num) (by norm_num) (by norm_num)

end B3
